import Mathlib

/-!
# Verification of the PDL_IMS inventory-management system

Shallow embedding of the Django models and helper functions of the
PDL_IMS repository (approvals, assets, procurement, core), together with
proofs about the claims of the specification.

Conventions of the embedding:
* `DecimalField` values are modelled as rationals (`ℚ`);
* nullable columns are `Option` types;
* datetimes are integers (seconds); dates are integer day numbers except
  where the code reads calendar components, where a `SDate` record is used;
* foreign keys either embed the referenced row (workflow steps, roles) or
  hold the referenced id (users, locations, items);
* Python truthiness tests on numeric/nullable fields (`if not x:`) are
  translated as "is `none` or is zero";
* a method that can `raise` is translated as `Except`, with the error
  carrying the state as it stands at the raise point when a claim is
  about atomicity.
-/

namespace PDLIMS

/-! ## core/models.py : BaseModel soft delete -/

/-- The audit/soft-delete columns shared by every `BaseModel` subclass
(`core/models.py`).  `id, created_at, updated_at, created_by, updated_by`
stand for the remaining base columns, untouched by the soft-delete API. -/
structure BaseRecord where
  id : Nat
  created_at : Int
  updated_at : Int
  created_by : Option Nat
  updated_by : Option Nat
  deleted_at : Option Int
  deleted_by : Option Nat
deriving DecidableEq, Repr

/-- `BaseModel.soft_delete(user_id)`: stamps `deleted_at` with the current
time and `deleted_by` with `user_id`; `save(update_fields=['deleted_at',
'deleted_by'])` writes only those two columns. -/
def BaseRecord.soft_delete (now : Int) (user_id : Option Nat) (r : BaseRecord) : BaseRecord :=
  { r with deleted_at := some now, deleted_by := user_id }

/-- `BaseModel.restore()`: clears both soft-delete columns. -/
def BaseRecord.restore (r : BaseRecord) : BaseRecord :=
  { r with deleted_at := none, deleted_by := none }

/-- `BaseModel.is_deleted` property: `deleted_at is not None`. -/
def BaseRecord.is_deleted (r : BaseRecord) : Bool :=
  r.deleted_at.isSome

/-! ## procurement/models.py : stock movements and batches -/

/-- Calendar date, as read by `StockMovement.save` (`.year`, `.month`). -/
structure SDate where
  year : Int
  month : Int
  day : Int
deriving DecidableEq, Repr

/-- Python truthiness of a nullable Decimal: `None` and `0` are falsy. -/
def truthyQ : Option ℚ → Bool
  | none => false
  | some x => x != 0

/-- Python `f"{x}"` for a nullable string: `None` prints as `"None"`. -/
def optStr : Option String → String
  | none => "None"
  | some s => s

/-- A row of the `stock_movements` table (`procurement/models.py`,
`StockMovement`).  Foreign keys are held as ids. -/
structure StockMovement where
  id : Nat
  item : Nat
  from_location : Option Nat
  to_location : Option Nat
  movement_type : String
  reference_type : Option String
  reference_id : Option Nat
  reference_number : Option String
  batch : Option Nat
  serial_no : Option String
  quantity : ℚ
  uom : Nat
  unit_cost : Option ℚ
  total_value : Option ℚ
  fiscal_year : Option Int
  fiscal_month : Option Int
  transaction_date : SDate
  transaction_time : Int
  created_by : Nat
  approved_by : Option Nat
  approved_at : Option Int
  reason_code : Option String
  remarks : Option String
  is_reversed : Bool
  reversed_by : Option Nat
  reversed_at : Option Int
  created_at : Int
deriving DecidableEq, Repr

/-- `StockMovement.save`: recomputes `total_value` when both `unit_cost`
and `quantity` are truthy, and derives the fiscal period from
`transaction_date` (a non-null `DateField`, hence always truthy). -/
def StockMovement.save_hook (m : StockMovement) : StockMovement :=
  let m1 := if truthyQ m.unit_cost && (m.quantity != 0)
            then { m with total_value := some (m.unit_cost.getD 0 * m.quantity) }
            else m
  { m1 with fiscal_year := some m1.transaction_date.year,
            fiscal_month := some m1.transaction_date.month }

/-- `StockMovement.reverse_movement(user)`: refuses when already reversed,
otherwise creates the opposite movement (locations swapped, saved through
`StockMovement.save`) and stamps the original's reversal columns via
`save(update_fields=['is_reversed', 'reversed_by', 'reversed_at'])`.
Returns `(updated original, new reverse movement)`. -/
def StockMovement.reverse_movement (m : StockMovement) (user : Nat) (now : Int) (newId : Nat) :
    Except String (StockMovement × StockMovement) :=
  if m.is_reversed then
    .error "This movement has already been reversed."
  else
    let rev := StockMovement.save_hook
      { id := newId
        item := m.item
        from_location := m.to_location
        to_location := m.from_location
        movement_type := m.movement_type
        reference_type := some ("REVERSAL_" ++ optStr m.reference_type)
        reference_id := some m.id
        reference_number := some ("REV-" ++ optStr m.reference_number)
        batch := m.batch
        serial_no := m.serial_no
        quantity := m.quantity
        uom := m.uom
        unit_cost := m.unit_cost
        total_value := none
        fiscal_year := none
        fiscal_month := none
        transaction_date := m.transaction_date
        transaction_time := now
        created_by := user
        approved_by := none
        approved_at := none
        reason_code := some "REVERSAL"
        remarks := some ("Reversal of movement " ++ toString m.id)
        is_reversed := false
        reversed_by := none
        reversed_at := none
        created_at := now }
    .ok ({ m with is_reversed := true, reversed_by := some user, reversed_at := some now }, rev)

/-- A row of the `stock_batches` table (`procurement/models.py`,
`StockBatch`).  `qty_available` and `total_value` are maintained by
`StockBatch.save`. -/
structure StockBatch where
  id : Nat
  item : Nat
  location : Nat
  batch_no : String
  qty_on_hand : ℚ
  qty_allocated : ℚ
  qty_available : ℚ
  unit_cost : ℚ
  total_value : ℚ
  status : String
  created_at : Int
deriving DecidableEq, Repr

/-- `StockBatch.save`: derives `qty_available` and `total_value` before
writing the row. -/
def StockBatch.save_hook (b : StockBatch) : StockBatch :=
  { b with qty_available := b.qty_on_hand - b.qty_allocated,
           total_value := b.qty_on_hand * b.unit_cost }

/-- FIFO order used by `get_item_valuation`: ascending `created_at`. -/
def batchLE (a b : StockBatch) : Prop := a.created_at ≤ b.created_at

instance : DecidableRel batchLE := fun a b =>
  inferInstanceAs (Decidable (a.created_at ≤ b.created_at))

/-- Result of `get_item_valuation`. -/
structure Valuation where
  quantity : ℚ
  value : ℚ
  avg_cost : ℚ
deriving DecidableEq, Repr

/-- The batches `get_item_valuation` aggregates over: the item's batches
with positive `qty_on_hand` and status `ACTIVE`, restricted to the
location when one is given. -/
def activeBatches (db : List StockBatch) (item : Nat) (location : Option Nat) :
    List StockBatch :=
  let batches := db.filter (fun b =>
    b.item == item && decide (0 < b.qty_on_hand) && b.status == "ACTIVE")
  match location with
  | some l => batches.filter (fun b => b.location == l)
  | none => batches

/-- `get_item_valuation(item, location=None)` (`procurement/models.py`):
filters the batches, orders them by `created_at` (FIFO), and sums
`qty_on_hand` and `total_value`; `avg_cost` is `value / quantity` when
the quantity is positive and `0` otherwise. -/
def get_item_valuation (db : List StockBatch) (item : Nat) (location : Option Nat) :
    Valuation :=
  let batches := List.insertionSort batchLE (activeBatches db item location)
  let total_qty := (batches.map (·.qty_on_hand)).sum
  let total_value := (batches.map (·.total_value)).sum
  { quantity := total_qty
    value := total_value
    avg_cost := if 0 < total_qty then total_value / total_qty else 0 }

/-! ## approvals/models.py : workflows, approvals, history -/

/-- A `users.Role` row, as referenced by workflow steps. -/
structure RoleRef where
  id : Nat
  role_name : String
deriving DecidableEq, Repr

/-- An `ApprovalWorkflowStep` row.  Role/user approver references embed
the referenced row; `deleted_at` is the inherited soft-delete column. -/
structure WorkflowStep where
  step_sequence : Int
  step_name : String
  approver_role : Option RoleRef
  approver_user : Option Nat
  is_parallel : Bool
  parallel_group : Option Int
  is_mandatory : Bool
  can_delegate : Bool
  timeout_hours : Option Int
  escalation_role : Option RoleRef
  deleted_at : Option Int
deriving DecidableEq, Repr

/-- An `ApprovalWorkflow` row together with its related `steps` rows. -/
structure Workflow where
  entity_type : String
  workflow_name : String
  is_active : Bool
  is_default : Bool
  min_value : Option ℚ
  max_value : Option ℚ
  deleted_at : Option Int
  steps : List WorkflowStep
deriving DecidableEq, Repr

/-- The `order_by('step_sequence')` ordering on workflow steps. -/
def stepLE (a b : WorkflowStep) : Prop := a.step_sequence ≤ b.step_sequence

instance : DecidableRel stepLE := fun a b =>
  inferInstanceAs (Decidable (a.step_sequence ≤ b.step_sequence))

instance : IsTotal WorkflowStep stepLE :=
  ⟨fun a b => Int.le_total a.step_sequence b.step_sequence⟩

instance : IsTrans WorkflowStep stepLE :=
  ⟨fun _ _ _ hab hbc => le_trans hab hbc⟩

/-- `ApprovalWorkflow.get_steps`: the workflow's non-deleted steps
ordered by `step_sequence`. -/
def Workflow.get_steps (w : Workflow) : List WorkflowStep :=
  List.insertionSort stepLE (w.steps.filter (fun s => s.deleted_at.isNone))

/-- An `ApprovalHistory` row.  `step_sequence` and `approver_user` record
the values the code passes to `objects.create` (the columns are non-null
in the schema, so a `none` here stands for a value the database would
reject). -/
structure HistoryEntry where
  step_sequence : Option Int
  approver_role : Option RoleRef
  approver_user : Option Nat
  action : String
  action_date : Int
  delegated_to_user : Option Nat
  comments : Option String
  ip_address : Option String
deriving DecidableEq, Repr

/-- An `Approval` row with its workflow and its related `history` rows. -/
structure Approval where
  entity_type : String
  entity_id : Nat
  entity_number : Option String
  workflow : Option Workflow
  current_step_sequence : Option Int
  requested_by : Nat
  requested_at : Int
  status : String
  completed_at : Option Int
  remarks : Option String
  metadata_value : Option ℚ
  history : List HistoryEntry
deriving DecidableEq, Repr

/-- `Approval.get_current_step`: `None` when there is no workflow or
`current_step_sequence` is falsy (null or `0`), else the step row with
the current sequence. -/
def Approval.get_current_step (a : Approval) : Option WorkflowStep :=
  match a.workflow with
  | none => none
  | some w =>
    match a.current_step_sequence with
    | none => none
    | some cur =>
      if cur = 0 then none
      else (w.steps.filter (fun s => s.step_sequence == cur)).head?

/-- `Approval.advance_to_next_step`: start at the first step when no
current step is set, else move to the first step with a strictly greater
sequence; when none remains, mark the approval APPROVED and complete it.
Returns the updated approval and the method's boolean result. -/
def Approval.advance_to_next_step (a : Approval) (now : Int) : Approval × Bool :=
  match a.workflow with
  | none => (a, false)
  | some w =>
    let steps := w.get_steps
    match a.current_step_sequence with
    | none =>
      match steps.head? with
      | some first_step =>
        ({ a with current_step_sequence := some first_step.step_sequence,
                  status := "IN_PROGRESS" }, true)
      | none => (a, false)
    | some cur =>
      match (steps.filter (fun s => decide (cur < s.step_sequence))).head? with
      | some next_step =>
        ({ a with current_step_sequence := some next_step.step_sequence }, true)
      | none =>
        ({ a with status := "APPROVED", completed_at := some now }, false)

/-- `Approval.reject(user, comments)`. -/
def Approval.reject (a : Approval) (now : Int) (user : Nat)
    (comments : Option String) : Approval :=
  { a with status := "REJECTED", completed_at := some now,
           history := { step_sequence := a.current_step_sequence
                        approver_role := none
                        approver_user := some user
                        action := "REJECTED"
                        action_date := now
                        delegated_to_user := none
                        comments := comments
                        ip_address := none } :: a.history }

/-- `Approval.cancel(user, reason)`. -/
def Approval.cancel (a : Approval) (now : Int) (user : Nat)
    (reason : Option String) : Approval :=
  { a with status := "CANCELLED", completed_at := some now,
           history := { step_sequence := a.current_step_sequence
                        approver_role := none
                        approver_user := some user
                        action := "CANCELLED"
                        action_date := now
                        delegated_to_user := none
                        comments := reason
                        ip_address := none } :: a.history }

/-- `Approval.check_timeout`: false when there is no current step or its
`timeout_hours` is falsy (null or `0`); otherwise compare the current
time against the last action at the current step (or `requested_at`)
plus the timeout.  Times are seconds, so `timeout_hours` counts as
`h * 3600`. -/
def Approval.check_timeout (a : Approval) (now : Int) : Bool :=
  match a.get_current_step with
  | none => false
  | some step =>
    match step.timeout_hours with
    | none => false
    | some h =>
      if h = 0 then false
      else
        let entries := a.history.filter
          (fun e => e.step_sequence == a.current_step_sequence)
        let reference_time := ((entries.map (·.action_date)).max?).getD a.requested_at
        decide (now > reference_time + h * 3600)

/-- `Approval.escalate`: requires a current step with an escalation role;
sets the status to ESCALATED and writes a history row that carries no
acting user (the code passes no `approver_user`). -/
def Approval.escalate (a : Approval) (now : Int) : Approval × Bool :=
  match a.get_current_step with
  | none => (a, false)
  | some step =>
    match step.escalation_role with
    | none => (a, false)
    | some erole =>
      ({ a with status := "ESCALATED",
                history := { step_sequence := a.current_step_sequence
                             approver_role := none
                             approver_user := none
                             action := "ESCALATED"
                             action_date := now
                             delegated_to_user := none
                             comments := some ("Escalated to " ++ erole.role_name
                               ++ " due to timeout")
                             ip_address := none } :: a.history }, true)

/-- A `users.User` row (id and active flag). -/
structure UserRec where
  id : Nat
  is_active : Bool
deriving DecidableEq, Repr

/-- A `UserRole` assignment row. -/
structure UserRole where
  user_id : Nat
  role_id : Nat
deriving DecidableEq, Repr

/-- The user tables consulted by `get_approvers`. -/
structure UserDB where
  users : List UserRec
  user_roles : List UserRole
deriving DecidableEq, Repr

/-- The active users holding a role: the role branch of
`ApprovalWorkflowStep.get_approvers`
(`User.objects.filter(user_roles__role=..., is_active=True)`). -/
def activeRoleHolders (db : UserDB) (role : RoleRef) : List Nat :=
  (db.users.filter (fun u => u.is_active &&
    db.user_roles.any (fun ur => ur.user_id == u.id && ur.role_id == role.id))).map (·.id)

/-- `ApprovalWorkflowStep.get_approvers`: the specific approver user when
one is set (and active), else the active holders of the approver role,
else nobody. -/
def get_approvers (db : UserDB) (s : WorkflowStep) : List Nat :=
  match s.approver_user with
  | some uid => (db.users.filter (fun u => u.id == uid && u.is_active)).map (·.id)
  | none =>
    match s.approver_role with
    | some role => activeRoleHolders db role
    | none => []

/-- `approve_step(approval, user, comments, ip_address)`: raises when
there is no current step or the user is not an authorized approver
(the error carries the approval exactly as it stood at the raise point —
the code raises before writing anything); otherwise writes the APPROVED
history row and advances, returning the updated approval and whether the
workflow completed. -/
def approve_step (db : UserDB) (a : Approval) (user : Nat) (now : Int)
    (comments : Option String) (ip_address : Option String) :
    Except (String × Approval) (Approval × Bool) :=
  match a.get_current_step with
  | none => .error ("No current step to approve", a)
  | some step =>
    if user ∈ get_approvers db step then
      let a1 := { a with history := { step_sequence := a.current_step_sequence
                                      approver_role := step.approver_role
                                      approver_user := some user
                                      action := "APPROVED"
                                      action_date := now
                                      delegated_to_user := none
                                      comments := comments
                                      ip_address := ip_address } :: a.history }
      let r := a1.advance_to_next_step now
      .ok (r.1, !r.2)
    else
      .error ("User is not authorized to approve this step", a)

/-- `ApprovalWorkflow.applies_to_value`, with Python truthiness on the
nullable bounds (a null or zero bound does not constrain). -/
def Workflow.applies_to_value (w : Workflow) (value : ℚ) : Bool :=
  if truthyQ w.min_value && decide (value < w.min_value.getD 0) then false
  else if truthyQ w.max_value && decide (value > w.max_value.getD 0) then false
  else true

/-- The approvals database: workflow table and approval table. -/
structure ApprovalsDB where
  workflows : List Workflow
  approvals : List Approval
deriving DecidableEq, Repr

/-- Workflow selection of `create_approval` (`approvals/models.py`):
active, non-deleted workflows of the entity type, filtered by
`applies_to_value` when the value is truthy; the default one when
present, else the first match. -/
def pick_workflow (db : ApprovalsDB) (entity_type : String) (value : Option ℚ) :
    Option Workflow :=
  let workflows := db.workflows.filter (fun w =>
    w.entity_type == entity_type && w.is_active && w.deleted_at.isNone)
  let workflows := if truthyQ value
    then workflows.filter (fun w => w.applies_to_value (value.getD 0))
    else workflows
  match workflows.find? (·.is_default) with
  | some w => some w
  | none => workflows.head?

/-- The row `create_approval` inserts before advancing it: a PENDING
approval on the chosen workflow, with `metadata` carrying the value when
it is truthy. -/
def new_approval_row (now : Int) (entity_type : String) (entity_id : Nat)
    (entity_number : Option String) (requested_by : Nat) (value : Option ℚ)
    (remarks : Option String) (w : Workflow) : Approval :=
  { entity_type := entity_type
    entity_id := entity_id
    entity_number := entity_number
    workflow := some w
    current_step_sequence := none
    requested_by := requested_by
    requested_at := now
    status := "PENDING"
    completed_at := none
    remarks := remarks
    metadata_value := if truthyQ value then value else none
    history := [] }

/-- `create_approval(...)` (`approvals/models.py`): raise when no
workflow applies, else insert the new PENDING approval, advanced to its
first step. -/
def create_approval (db : ApprovalsDB) (now : Int) (entity_type : String)
    (entity_id : Nat) (entity_number : Option String) (requested_by : Nat)
    (value : Option ℚ) (remarks : Option String) : Except String ApprovalsDB :=
  match pick_workflow db entity_type value with
  | none => .error ("No active workflow found for " ++ entity_type)
  | some w =>
    .ok { db with approvals := db.approvals ++
      [((new_approval_row now entity_type entity_id entity_number requested_by
          value remarks w).advance_to_next_step now).1] }

/-- A `PurchaseRequest` row, as read by the post-save receiver. -/
structure PurchaseRequest where
  id : Nat
  pr_number : String
  status : String
  requester : Nat
  total_estimated_value : Option ℚ
  justification : Option String
deriving DecidableEq, Repr

/-- `auto_create_pr_approval` post-save receiver (`approvals/signals.py`):
on a save with status SUBMITTED, do nothing when a PR approval for this
entity already exists, else try `create_approval` (exceptions are caught
and leave the database as it was). -/
def auto_create_pr_approval (db : ApprovalsDB) (now : Int)
    (pr : PurchaseRequest) : ApprovalsDB :=
  if pr.status == "SUBMITTED" then
    if db.approvals.any (fun a => a.entity_type == "PR" && a.entity_id == pr.id) then db
    else
      match create_approval db now "PR" pr.id (some pr.pr_number) pr.requester
          pr.total_estimated_value pr.justification with
      | .ok db2 => db2
      | .error _ => db
  else db

/-- Saving the purchase request `n` times: the receiver runs once per
`post_save`. -/
def saveTimes (db : ApprovalsDB) (now : Int) (pr : PurchaseRequest) : Nat → ApprovalsDB
  | 0 => db
  | n + 1 => auto_create_pr_approval (saveTimes db now pr n) now pr

/-- Number of `Approval` rows with `entity_type='PR'` and the purchase
request's id — the uniqueness measure of the receiver's exists-check. -/
def prApprovalCount (db : ApprovalsDB) (pr : PurchaseRequest) : Nat :=
  (db.approvals.filter (fun a => a.entity_type == "PR" && a.entity_id == pr.id)).length

/-! ## assets/models.py : depreciation -/

/-- Python `int()` on a rational: truncation toward zero. -/
def pyInt (q : ℚ) : Int := if 0 ≤ q then ⌊q⌋ else ⌈q⌉

/-- The `Asset` columns involved in depreciation.  `purchase_date` is a
day number; `accumulated_depreciation` is non-null with default `0`. -/
structure Asset where
  purchase_date : Option Int
  purchase_price : Option ℚ
  salvage_value : Option ℚ
  useful_life_years : Option Int
  depreciation_method : String
  accumulated_depreciation : ℚ
  current_book_value : Option ℚ
deriving DecidableEq, Repr

/-- `Asset._calculate_years_since_purchase`: `(today - purchase_date).days
/ 365.25` (and `0` with no purchase date). -/
def Asset.calc_years_since_purchase (a : Asset) (today : Int) : ℚ :=
  match a.purchase_date with
  | none => 0
  | some pd => ((today - pd : Int) : ℚ) / (1461 / 4 : ℚ)

/-- The declining-balance loop of `Asset.calculate_depreciation`: each
iteration subtracts `remaining * rate`; when the result drops below the
salvage value it is clamped there and the loop breaks. -/
def declining_loop (rate salvage : ℚ) : Nat → ℚ → ℚ
  | 0, remaining => remaining
  | n + 1, remaining =>
    let next := remaining - remaining * rate
    if next < salvage then salvage else declining_loop rate salvage n next

/-- `Asset.calculate_depreciation`: guarded by Python truthiness
(`purchase_date` null, `purchase_price` null or zero, or
`useful_life_years` null or zero return early); straight-line and
declining-balance branches update `accumulated_depreciation`, and
`current_book_value` is floored at the salvage value. -/
def Asset.calculate_depreciation (a : Asset) (today : Int) : Asset :=
  if a.purchase_date = none ∨ a.purchase_price = none ∨ a.purchase_price = some 0 ∨
     a.useful_life_years = none ∨ a.useful_life_years = some 0 then a
  else
    let cost := a.purchase_price.getD 0
    let salvage := a.salvage_value.getD 0
    let years_passed := a.calc_years_since_purchase today
    let life : ℚ := ((a.useful_life_years.getD 0 : Int) : ℚ)
    let a1 :=
      if a.depreciation_method = "STRAIGHT_LINE" then
        let annual_depreciation := (cost - salvage) / life
        let acc := min (annual_depreciation * years_passed) (cost - salvage)
        { a with accumulated_depreciation := acc }
      else if a.depreciation_method = "DECLINING_BALANCE" then
        let rate := 2 / life
        let remaining := declining_loop rate salvage (pyInt years_passed).toNat cost
        { a with accumulated_depreciation := cost - remaining }
      else a
    let book := max (cost - a1.accumulated_depreciation) salvage
    { a1 with current_book_value := some book }

/-- The declining-balance recurrence exactly as the specification words
it: multiply the remaining value by `(1 - 2 / useful_life_years)` once
per whole elapsed year, clamping at the salvage value and stopping at
the first clamp. -/
def decliningSpec (life salvage : ℚ) : Nat → ℚ → ℚ
  | 0, remaining => remaining
  | n + 1, remaining =>
    let next := remaining * (1 - 2 / life)
    if next < salvage then salvage else decliningSpec life salvage n next

/-! ## Concrete inputs used by counterexamples -/

/-- An in-progress approval whose current step has an escalation role:
escalation applies, so `escalate` writes its audit row. -/
def escCex : Approval :=
  { entity_type := "PR", entity_id := 1, entity_number := some "PR-1",
    workflow := some
      { entity_type := "PR", workflow_name := "W", is_active := true, is_default := true,
        min_value := none, max_value := none, deleted_at := none,
        steps := [{ step_sequence := 1, step_name := "S1", approver_role := none,
                    approver_user := some 1, is_parallel := false, parallel_group := none,
                    is_mandatory := true, can_delegate := true, timeout_hours := some 24,
                    escalation_role := some ⟨7, "Manager"⟩, deleted_at := none }] },
    current_step_sequence := some 1, requested_by := 2, requested_at := 0,
    status := "IN_PROGRESS", completed_at := none, remarks := none,
    metadata_value := none, history := [] }

/-- An in-progress approval whose current step has `timeout_hours = 0`:
non-null, but falsy for the Python guard. -/
def c6Cex : Approval :=
  { entity_type := "PR", entity_id := 2, entity_number := some "PR-2",
    workflow := some
      { entity_type := "PR", workflow_name := "W", is_active := true, is_default := true,
        min_value := none, max_value := none, deleted_at := none,
        steps := [{ step_sequence := 1, step_name := "S1", approver_role := none,
                    approver_user := some 1, is_parallel := false, parallel_group := none,
                    is_mandatory := true, can_delegate := true, timeout_hours := some 0,
                    escalation_role := none, deleted_at := none }] },
    current_step_sequence := some 1, requested_by := 2, requested_at := 0,
    status := "IN_PROGRESS", completed_at := none, remarks := none,
    metadata_value := none, history := [] }

/-- A two-step workflow used as concrete input. -/
def c1W : Workflow :=
  { entity_type := "PR", workflow_name := "W2", is_active := true, is_default := true,
    min_value := none, max_value := none, deleted_at := none,
    steps := [{ step_sequence := 1, step_name := "S1", approver_role := none,
                approver_user := some 1, is_parallel := false, parallel_group := none,
                is_mandatory := true, can_delegate := true, timeout_hours := none,
                escalation_role := none, deleted_at := none },
              { step_sequence := 2, step_name := "S2", approver_role := none,
                approver_user := some 3, is_parallel := false, parallel_group := none,
                is_mandatory := true, can_delegate := true, timeout_hours := none,
                escalation_role := none, deleted_at := none }] }

/-- An approval sitting at the last step of `c1W`. -/
def c1A : Approval :=
  { entity_type := "PR", entity_id := 9, entity_number := some "PR-9",
    workflow := some c1W, current_step_sequence := some 2, requested_by := 2,
    requested_at := 0, status := "IN_PROGRESS", completed_at := none,
    remarks := none, metadata_value := none, history := [] }

/-- A default PR workflow with a single step, and a submitted purchase
request, used as the concrete input of the C7 witness. -/
def c7Db : ApprovalsDB :=
  { workflows :=
      [{ entity_type := "PR", workflow_name := "Default PR",
         is_active := true, is_default := true, min_value := none,
         max_value := none, deleted_at := none,
         steps := [{ step_sequence := 1, step_name := "S1", approver_role := none,
                     approver_user := some 1, is_parallel := false,
                     parallel_group := none, is_mandatory := true,
                     can_delegate := true, timeout_hours := none,
                     escalation_role := none, deleted_at := none }] }],
    approvals := [] }

/-! ## Theorems -/

/-- C10: `soft_delete(user_id)` sets `deleted_at` to the current time and
`deleted_by` to `user_id` and modifies nothing else, after which
`is_deleted` holds; `restore` afterwards sets both fields back to `None`,
making `is_deleted` false again, so `restore ∘ soft_delete` is the
identity on a record whose soft-delete state was clean. -/
theorem c10_soft_delete_round_trip (r : BaseRecord) (now : Int) (uid : Option Nat) :
    (r.soft_delete now uid).deleted_at = some now ∧
    (r.soft_delete now uid).deleted_by = uid ∧
    (r.soft_delete now uid).id = r.id ∧
    (r.soft_delete now uid).created_at = r.created_at ∧
    (r.soft_delete now uid).updated_at = r.updated_at ∧
    (r.soft_delete now uid).created_by = r.created_by ∧
    (r.soft_delete now uid).updated_by = r.updated_by ∧
    (r.soft_delete now uid).is_deleted = true ∧
    ((r.soft_delete now uid).restore).deleted_at = none ∧
    ((r.soft_delete now uid).restore).deleted_by = none ∧
    ((r.soft_delete now uid).restore).is_deleted = false ∧
    (r.deleted_at = none → r.deleted_by = none → (r.soft_delete now uid).restore = r) := by
  refine ⟨rfl, rfl, rfl, rfl, rfl, rfl, rfl, rfl, rfl, rfl, rfl, ?_⟩
  intro h1 h2
  simp [BaseRecord.soft_delete, BaseRecord.restore, ← h1, ← h2]

/-- Witness for C10 at a concrete record. -/
theorem c10_witness :
    (BaseRecord.soft_delete 50 (some 9)
      ⟨1, 10, 20, some 2, none, none, none⟩).restore = ⟨1, 10, 20, some 2, none, none, none⟩ :=
  (c10_soft_delete_round_trip ⟨1, 10, 20, some 2, none, none, none⟩ 50 (some 9)).2.2.2.2.2.2.2.2.2.2.2 rfl rfl

/-- `StockMovement.save` touches only `total_value`, `fiscal_year` and
`fiscal_month`. -/
theorem save_hook_preserves (m : StockMovement) :
    (m.save_hook).id = m.id ∧ (m.save_hook).item = m.item ∧
    (m.save_hook).from_location = m.from_location ∧
    (m.save_hook).to_location = m.to_location ∧
    (m.save_hook).movement_type = m.movement_type ∧
    (m.save_hook).quantity = m.quantity ∧ (m.save_hook).uom = m.uom ∧
    (m.save_hook).unit_cost = m.unit_cost ∧ (m.save_hook).batch = m.batch ∧
    (m.save_hook).serial_no = m.serial_no := by
  unfold StockMovement.save_hook
  split <;> simp

/-- C9: `reverse_movement` raises exactly when the movement is already
reversed; otherwise it creates one opposite movement with the locations
swapped and the same item, type, quantity, uom, unit cost, batch and
serial number, and updates only `is_reversed`, `reversed_by` and
`reversed_at` on the original. -/
theorem c9_reverse_movement (m : StockMovement) (user : Nat) (now : Int) (newId : Nat) :
    (m.is_reversed = true → ∃ msg, m.reverse_movement user now newId = Except.error msg) ∧
    (m.is_reversed = false →
      ∃ orig rev, m.reverse_movement user now newId = Except.ok (orig, rev) ∧
        rev.from_location = m.to_location ∧
        rev.to_location = m.from_location ∧
        rev.item = m.item ∧
        rev.movement_type = m.movement_type ∧
        rev.quantity = m.quantity ∧
        rev.uom = m.uom ∧
        rev.unit_cost = m.unit_cost ∧
        rev.batch = m.batch ∧
        rev.serial_no = m.serial_no ∧
        orig = { m with is_reversed := true, reversed_by := some user,
                        reversed_at := some now }) := by
  constructor
  · intro h
    exact ⟨"This movement has already been reversed.", by
      unfold StockMovement.reverse_movement; rw [h]; rfl⟩
  · intro h
    unfold StockMovement.reverse_movement
    rw [h]
    simp only [Bool.false_eq_true, if_false]
    exact ⟨_, _, rfl,
      (save_hook_preserves _).2.2.1,
      (save_hook_preserves _).2.2.2.1,
      (save_hook_preserves _).2.1,
      (save_hook_preserves _).2.2.2.2.1,
      (save_hook_preserves _).2.2.2.2.2.1,
      (save_hook_preserves _).2.2.2.2.2.2.1,
      (save_hook_preserves _).2.2.2.2.2.2.2.1,
      (save_hook_preserves _).2.2.2.2.2.2.2.2.1,
      (save_hook_preserves _).2.2.2.2.2.2.2.2.2,
      rfl⟩

/-- Witness for C9: an un-reversed concrete movement is reversed. -/
theorem c9_witness :
    ∃ orig rev,
      (StockMovement.reverse_movement
        ⟨1, 10, some 2, some 3, "TRANSFER", some "PO", none, some "PO-1", none, none,
         5, 4, some 7, none, none, none, ⟨2025, 3, 14⟩, 50, 11, none, none, none, none,
         false, none, none, 50⟩ 9 100 2) = Except.ok (orig, rev) ∧
      rev.from_location = some 3 ∧
      rev.to_location = some 2 ∧
      rev.item = 10 ∧
      rev.movement_type = "TRANSFER" ∧
      rev.quantity = 5 ∧
      rev.uom = 4 ∧
      rev.unit_cost = some 7 ∧
      rev.batch = none ∧
      rev.serial_no = none ∧
      orig = { (⟨1, 10, some 2, some 3, "TRANSFER", some "PO", none, some "PO-1", none, none,
         5, 4, some 7, none, none, none, ⟨2025, 3, 14⟩, 50, 11, none, none, none, none,
         false, none, none, 50⟩ : StockMovement) with
          is_reversed := true, reversed_by := some 9, reversed_at := some 100 } :=
  (c9_reverse_movement _ 9 100 2).2 rfl

/-- Summing a projection is invariant under the FIFO sort. -/
theorem sum_map_insertionSort (r : StockBatch → StockBatch → Prop) [DecidableRel r]
    (l : List StockBatch) (f : StockBatch → ℚ) :
    ((List.insertionSort r l).map f).sum = (l.map f).sum :=
  ((List.perm_insertionSort r l).map f).sum_eq

/-- Permuting the stored batches permutes the filtered batches. -/
theorem activeBatches_perm (db db₂ : List StockBatch) (item : Nat)
    (location : Option Nat) (h : db.Perm db₂) :
    (activeBatches db item location).Perm (activeBatches db₂ item location) := by
  unfold activeBatches
  cases location with
  | none => exact h.filter _
  | some l => exact (h.filter _).filter _

/-- C4: the valuation's `quantity` is the sum of `qty_on_hand` over the
item's positive-quantity ACTIVE batches (restricted to the location when
given), `value` is the sum of their `total_value`, `avg_cost` is
`value / quantity` when the quantity is positive and `0` otherwise, and
the result does not depend on the order of the stored batches (in
particular not on the FIFO `created_at` ordering). -/
theorem c4_item_valuation (db db₂ : List StockBatch) (item : Nat)
    (location : Option Nat) (hperm : db.Perm db₂) :
    (get_item_valuation db item location).quantity
      = ((activeBatches db item location).map (·.qty_on_hand)).sum ∧
    (get_item_valuation db item location).value
      = ((activeBatches db item location).map (·.total_value)).sum ∧
    (get_item_valuation db item location).avg_cost
      = (if 0 < (get_item_valuation db item location).quantity
         then (get_item_valuation db item location).value
              / (get_item_valuation db item location).quantity
         else 0) ∧
    get_item_valuation db item location = get_item_valuation db₂ item location := by
  have hq : ∀ d : List StockBatch, ∀ f : StockBatch → ℚ,
      ((List.insertionSort batchLE (activeBatches d item location)).map f).sum
        = ((activeBatches d item location).map f).sum :=
    fun d f => sum_map_insertionSort batchLE _ f
  have hperm2 := activeBatches_perm db db₂ item location hperm
  have hqq : ∀ f : StockBatch → ℚ,
      ((activeBatches db item location).map f).sum
        = ((activeBatches db₂ item location).map f).sum :=
    fun f => (hperm2.map f).sum_eq
  refine ⟨hq db _, hq db _, rfl, ?_⟩
  unfold get_item_valuation
  have h1 : ((List.insertionSort batchLE (activeBatches db item location)).map
      (·.qty_on_hand)).sum
      = ((List.insertionSort batchLE (activeBatches db₂ item location)).map
      (·.qty_on_hand)).sum := by
    rw [hq db, hq db₂]; exact hqq _
  have h2 : ((List.insertionSort batchLE (activeBatches db item location)).map
      (·.total_value)).sum
      = ((List.insertionSort batchLE (activeBatches db₂ item location)).map
      (·.total_value)).sum := by
    rw [hq db, hq db₂]; exact hqq _
  simp only [h1, h2]

/-- Witness for C4: two concrete stores that are permutations of one
another valuate identically, and the valuation matches the sums. -/
theorem c4_witness :
    (get_item_valuation
      [⟨1, 5, 2, "B1", 3, 0, 3, 10, 30, "ACTIVE", 100⟩,
       ⟨2, 5, 2, "B2", 1, 0, 1, 20, 20, "ACTIVE", 50⟩] 5 none).quantity
      = ((activeBatches
      [⟨1, 5, 2, "B1", 3, 0, 3, 10, 30, "ACTIVE", 100⟩,
       ⟨2, 5, 2, "B2", 1, 0, 1, 20, 20, "ACTIVE", 50⟩] 5 none).map (·.qty_on_hand)).sum ∧
    (get_item_valuation
      [⟨1, 5, 2, "B1", 3, 0, 3, 10, 30, "ACTIVE", 100⟩,
       ⟨2, 5, 2, "B2", 1, 0, 1, 20, 20, "ACTIVE", 50⟩] 5 none).value
      = ((activeBatches
      [⟨1, 5, 2, "B1", 3, 0, 3, 10, 30, "ACTIVE", 100⟩,
       ⟨2, 5, 2, "B2", 1, 0, 1, 20, 20, "ACTIVE", 50⟩] 5 none).map (·.total_value)).sum ∧
    (get_item_valuation
      [⟨1, 5, 2, "B1", 3, 0, 3, 10, 30, "ACTIVE", 100⟩,
       ⟨2, 5, 2, "B2", 1, 0, 1, 20, 20, "ACTIVE", 50⟩] 5 none).avg_cost
      = (if 0 < (get_item_valuation
      [⟨1, 5, 2, "B1", 3, 0, 3, 10, 30, "ACTIVE", 100⟩,
       ⟨2, 5, 2, "B2", 1, 0, 1, 20, 20, "ACTIVE", 50⟩] 5 none).quantity
         then (get_item_valuation
      [⟨1, 5, 2, "B1", 3, 0, 3, 10, 30, "ACTIVE", 100⟩,
       ⟨2, 5, 2, "B2", 1, 0, 1, 20, 20, "ACTIVE", 50⟩] 5 none).value
              / (get_item_valuation
      [⟨1, 5, 2, "B1", 3, 0, 3, 10, 30, "ACTIVE", 100⟩,
       ⟨2, 5, 2, "B2", 1, 0, 1, 20, 20, "ACTIVE", 50⟩] 5 none).quantity
         else 0) ∧
    get_item_valuation
      [⟨1, 5, 2, "B1", 3, 0, 3, 10, 30, "ACTIVE", 100⟩,
       ⟨2, 5, 2, "B2", 1, 0, 1, 20, 20, "ACTIVE", 50⟩] 5 none
      = get_item_valuation
      [⟨2, 5, 2, "B2", 1, 0, 1, 20, 20, "ACTIVE", 50⟩,
       ⟨1, 5, 2, "B1", 3, 0, 3, 10, 30, "ACTIVE", 100⟩] 5 none :=
  c4_item_valuation _ _ 5 none (List.Perm.swap _ _ _)

/-! ## Theorems about depreciation (C2, C3) -/

/-- `advance_to_next_step` never touches the entity reference or the
history of the approval. -/
theorem advance_preserves (a : Approval) (now : Int) :
    ((a.advance_to_next_step now).1).entity_type = a.entity_type ∧
    ((a.advance_to_next_step now).1).entity_id = a.entity_id ∧
    ((a.advance_to_next_step now).1).history = a.history := by
  rcases hw : a.workflow with _ | w
  · simp [Approval.advance_to_next_step, hw]
  · rcases hc : a.current_step_sequence with _ | cur
    · rcases hh : (w.get_steps).head? with _ | s <;>
        simp [Approval.advance_to_next_step, hw, hc, hh]
    · rcases hh : ((w.get_steps).filter
          (fun s => decide (cur < s.step_sequence))).head? with _ | s <;>
        simp [Approval.advance_to_next_step, hw, hc, hh]

/-- C2 (amended: the non-null `purchase_price` and `useful_life_years`
must also be nonzero, since the code guards with Python truthiness):
straight-line depreciation sets `accumulated_depreciation` to
`min(((price - salvage) / life) * years_elapsed, price - salvage)` with
`years_elapsed = days_since_purchase / 365.25`, and sets
`current_book_value` to `max(price - accumulated, salvage)`, which never
falls below the salvage value. -/
theorem c2_straight_line (a : Asset) (today pd : Int) (p : ℚ) (life : Int)
    (hm : a.depreciation_method = "STRAIGHT_LINE")
    (hd : a.purchase_date = some pd)
    (hp : a.purchase_price = some p) (hp0 : p ≠ 0)
    (hl : a.useful_life_years = some life) (hl0 : life ≠ 0) :
    (a.calculate_depreciation today).accumulated_depreciation
      = min (((p - a.salvage_value.getD 0) / ((life : Int) : ℚ))
              * (((today - pd : Int) : ℚ) / (1461 / 4)))
            (p - a.salvage_value.getD 0) ∧
    (a.calculate_depreciation today).current_book_value
      = some (max (p - (a.calculate_depreciation today).accumulated_depreciation)
                  (a.salvage_value.getD 0)) ∧
    ∀ bv, (a.calculate_depreciation today).current_book_value = some bv →
      a.salvage_value.getD 0 ≤ bv := by
  have hguard : ¬(a.purchase_date = none ∨ a.purchase_price = none ∨
      a.purchase_price = some 0 ∨ a.useful_life_years = none ∨
      a.useful_life_years = some 0) := by
    simp [hd, hp, hl, hp0, hl0]
  refine ⟨?_, ?_, ?_⟩
  · simp [Asset.calculate_depreciation, hguard, hm, hd, hp, hl, hp0, hl0,
      Asset.calc_years_since_purchase]
  · simp [Asset.calculate_depreciation, hguard, hm, hd, hp, hl, hp0, hl0,
      Asset.calc_years_since_purchase]
  · intro bv hbv
    simp [Asset.calculate_depreciation, hguard, hm, hd, hp, hl, hp0, hl0,
      Asset.calc_years_since_purchase] at hbv
    rw [← hbv]
    exact le_max_right _ _

/-- C2 as frozen is false: an asset whose `purchase_price` is non-null
but zero is skipped by the truthiness guard, so `current_book_value`
stays null instead of being set to `max(price - accumulated, salvage)`. -/
theorem c2_counterexample :
    ¬ (((Asset.calculate_depreciation
          ⟨some 0, some 0, none, some 5, "STRAIGHT_LINE", 0, none⟩ 1000).accumulated_depreciation
        = min ((((0 : ℚ) - 0) / 5) * (((1000 - 0 : Int) : ℚ) / (1461 / 4))) ((0 : ℚ) - 0)) ∧
       ((Asset.calculate_depreciation
          ⟨some 0, some 0, none, some 5, "STRAIGHT_LINE", 0, none⟩ 1000).current_book_value
        = some (max ((0 : ℚ)
            - (Asset.calculate_depreciation
                ⟨some 0, some 0, none, some 5, "STRAIGHT_LINE", 0, none⟩
                1000).accumulated_depreciation) 0))) := by
  intro h
  have hb := h.2
  simp [Asset.calculate_depreciation] at hb

/-- Witness for C2 at a concrete asset (price 1000, salvage 100, life 10,
bought 730 days before the valuation date). -/
theorem c2_witness :
    (Asset.calculate_depreciation
        ⟨some 0, some 1000, some 100, some 10, "STRAIGHT_LINE", 0, none⟩ 730).accumulated_depreciation
      = min ((((1000 : ℚ) - (some (100 : ℚ)).getD 0) / ((10 : Int) : ℚ))
              * (((730 - 0 : Int) : ℚ) / (1461 / 4)))
            ((1000 : ℚ) - (some (100 : ℚ)).getD 0) ∧
    (Asset.calculate_depreciation
        ⟨some 0, some 1000, some 100, some 10, "STRAIGHT_LINE", 0, none⟩ 730).current_book_value
      = some (max ((1000 : ℚ)
          - (Asset.calculate_depreciation
              ⟨some 0, some 1000, some 100, some 10, "STRAIGHT_LINE", 0, none⟩
              730).accumulated_depreciation) ((some (100 : ℚ)).getD 0)) ∧
    ∀ bv, (Asset.calculate_depreciation
        ⟨some 0, some 1000, some 100, some 10, "STRAIGHT_LINE", 0, none⟩ 730).current_book_value
        = some bv → (some (100 : ℚ)).getD 0 ≤ bv :=
  c2_straight_line ⟨some 0, some 1000, some 100, some 10, "STRAIGHT_LINE", 0, none⟩
    730 0 1000 10 rfl rfl rfl (by norm_num) rfl (by norm_num)

/-- The code's loop (`remaining -= remaining * rate` with `rate = 2/life`)
computes the specification's recurrence `remaining *= (1 - 2/life)`. -/
theorem declining_loop_eq_spec (life salvage : ℚ) (n : Nat) (remaining : ℚ) :
    declining_loop (2 / life) salvage n remaining
      = decliningSpec life salvage n remaining := by
  induction n generalizing remaining with
  | zero => rfl
  | succ n ih =>
    show (if remaining - remaining * (2 / life) < salvage then salvage
          else declining_loop (2 / life) salvage n (remaining - remaining * (2 / life)))
        = (if remaining * (1 - 2 / life) < salvage then salvage
          else decliningSpec life salvage n (remaining * (1 - 2 / life)))
    have h : remaining - remaining * (2 / life) = remaining * (1 - 2 / life) := by ring
    rw [h]
    split
    · rfl
    · exact ih _

/-- C3 (amended: the non-null `purchase_price` and `useful_life_years`
must also be nonzero, since the code guards with Python truthiness):
declining-balance depreciation multiplies the remaining value by
`(1 - 2/life)` once per whole elapsed year starting from the price,
clamping at the salvage value and stopping at the first clamp, then sets
`accumulated_depreciation = price - remaining` and
`current_book_value = max(price - accumulated, salvage)`. -/
theorem c3_declining_balance (a : Asset) (today pd : Int) (p : ℚ) (life : Int)
    (hm : a.depreciation_method = "DECLINING_BALANCE")
    (hd : a.purchase_date = some pd)
    (hp : a.purchase_price = some p) (hp0 : p ≠ 0)
    (hl : a.useful_life_years = some life) (hl0 : life ≠ 0) :
    (a.calculate_depreciation today).accumulated_depreciation
      = p - decliningSpec ((life : Int) : ℚ) (a.salvage_value.getD 0)
              (pyInt (((today - pd : Int) : ℚ) / (1461 / 4))).toNat p ∧
    (a.calculate_depreciation today).current_book_value
      = some (max (p - (a.calculate_depreciation today).accumulated_depreciation)
                  (a.salvage_value.getD 0)) := by
  have hguard : ¬(a.purchase_date = none ∨ a.purchase_price = none ∨
      a.purchase_price = some 0 ∨ a.useful_life_years = none ∨
      a.useful_life_years = some 0) := by
    simp [hd, hp, hl, hp0, hl0]
  constructor
  · simp [Asset.calculate_depreciation, hguard, hm, hd, hp, hl, hp0, hl0,
      Asset.calc_years_since_purchase, declining_loop_eq_spec]
  · simp [Asset.calculate_depreciation, hguard, hm, hd, hp, hl, hp0, hl0,
      Asset.calc_years_since_purchase, declining_loop_eq_spec]

/-- C3 as frozen is false, by the same truthiness guard: at zero
`purchase_price` nothing is computed, so `accumulated_depreciation`
keeps its old value `3` instead of `price - remaining = 0`. -/
theorem c3_counterexample :
    ¬ ((Asset.calculate_depreciation
          ⟨some 0, some 0, none, some 5, "DECLINING_BALANCE", 3, none⟩ 1000).accumulated_depreciation
        = (0 : ℚ) - decliningSpec 5 0 2 0) := by
  intro h
  norm_num [Asset.calculate_depreciation, decliningSpec] at h

/-- Witness for C3 at a concrete asset (price 1000, salvage 100, life 10,
bought 730 days before the valuation date, so two whole years). -/
theorem c3_witness :
    (Asset.calculate_depreciation
        ⟨some 0, some 1000, some 100, some 10, "DECLINING_BALANCE", 0, none⟩ 730).accumulated_depreciation
      = (1000 : ℚ) - decliningSpec ((10 : Int) : ℚ) ((some (100 : ℚ)).getD 0)
            (pyInt (((730 - 0 : Int) : ℚ) / (1461 / 4))).toNat 1000 ∧
    (Asset.calculate_depreciation
        ⟨some 0, some 1000, some 100, some 10, "DECLINING_BALANCE", 0, none⟩ 730).current_book_value
      = some (max ((1000 : ℚ)
          - (Asset.calculate_depreciation
              ⟨some 0, some 1000, some 100, some 10, "DECLINING_BALANCE", 0, none⟩
              730).accumulated_depreciation) ((some (100 : ℚ)).getD 0)) :=
  c3_declining_balance ⟨some 0, some 1000, some 100, some 10, "DECLINING_BALANCE", 0, none⟩
    730 0 1000 10 rfl rfl rfl (by norm_num) rfl (by norm_num)

/-! ## Theorems about the approval actions (C8, C5, C6) -/

/-- A caller outside the step's approver set (the designated
`approver_user` when set, otherwise the active holders of
`approver_role`) is not in `get_approvers`. -/
theorem not_mem_get_approvers (db : UserDB) (step : WorkflowStep) (user : Nat)
    (h : match step.approver_user with
         | some u => user ≠ u
         | none =>
           match step.approver_role with
           | some role => user ∉ activeRoleHolders db role
           | none => True) :
    user ∉ get_approvers db step := by
  intro hmem
  unfold get_approvers at hmem
  cases hu : step.approver_user with
  | some u =>
    rw [hu] at hmem h
    simp only [List.mem_map, List.mem_filter, Bool.and_eq_true, beq_iff_eq] at hmem
    rcases hmem with ⟨x, ⟨_, hxid, _⟩, hxu⟩
    exact h (by rw [← hxu, hxid])
  | none =>
    rw [hu] at hmem h
    cases hr : step.approver_role with
    | some role =>
      rw [hr] at hmem h
      exact h hmem
    | none =>
      rw [hr] at hmem
      simp at hmem

/-- C8: `approve_step` raises ValidationError — leaving the approval row
and the history untouched, since the code raises before writing — when
there is no current step, or when the caller is not in the current
step's approver set (the designated `approver_user` when set, otherwise
the active holders of `approver_role`). -/
theorem c8_approve_step_atomic (db : UserDB) (a : Approval) (user : Nat) (now : Int)
    (comments ip : Option String) :
    (a.get_current_step = none →
      approve_step db a user now comments ip
        = Except.error ("No current step to approve", a)) ∧
    (∀ step, a.get_current_step = some step →
      (match step.approver_user with
       | some u => user ≠ u
       | none =>
         match step.approver_role with
         | some role => user ∉ activeRoleHolders db role
         | none => True) →
      approve_step db a user now comments ip
        = Except.error ("User is not authorized to approve this step", a)) := by
  constructor
  · intro h
    simp [approve_step, h]
  · intro step hstep hcond
    have hna := not_mem_get_approvers db step user hcond
    simp only [approve_step, hstep]
    rw [if_neg hna]

/-- Witness for C8: user 2 is not the designated approver (user 1), so
the call fails and returns the untouched approval. -/
theorem c8_witness :
    (escCex.get_current_step = none →
      approve_step ⟨[⟨1, true⟩, ⟨2, true⟩], []⟩ escCex 2 100 none none
        = Except.error ("No current step to approve", escCex)) ∧
    (∀ step, escCex.get_current_step = some step →
      (match step.approver_user with
       | some u => (2 : Nat) ≠ u
       | none =>
         match step.approver_role with
         | some role => (2 : Nat) ∉ activeRoleHolders ⟨[⟨1, true⟩, ⟨2, true⟩], []⟩ role
         | none => True) →
      approve_step ⟨[⟨1, true⟩, ⟨2, true⟩], []⟩ escCex 2 100 none none
        = Except.error ("User is not authorized to approve this step", escCex)) :=
  c8_approve_step_atomic ⟨[⟨1, true⟩, ⟨2, true⟩], []⟩ escCex 2 100 none none

/-- C5 (amended: `approve_step`, `reject` and `cancel` record the acting
user; `escalate` writes its audit row without any acting user, because
the code passes no `approver_user` — a column that is non-null in the
schema): each action prepends exactly one history row carrying the right
action and the approval's `current_step_sequence` at action time. -/
theorem c5_audit_rows (db : UserDB) (a : Approval) (user : Nat) (now : Int)
    (comments reason : Option String) (ip : Option String) :
    ((a.reject now user comments).history
      = { step_sequence := a.current_step_sequence, approver_role := none,
          approver_user := some user, action := "REJECTED", action_date := now,
          delegated_to_user := none, comments := comments, ip_address := none }
        :: a.history) ∧
    ((a.cancel now user reason).history
      = { step_sequence := a.current_step_sequence, approver_role := none,
          approver_user := some user, action := "CANCELLED", action_date := now,
          delegated_to_user := none, comments := reason, ip_address := none }
        :: a.history) ∧
    (∀ step, a.get_current_step = some step → user ∈ get_approvers db step →
      ∃ a2 done, approve_step db a user now comments ip = Except.ok (a2, done) ∧
        a2.history
          = { step_sequence := a.current_step_sequence,
              approver_role := step.approver_role,
              approver_user := some user, action := "APPROVED", action_date := now,
              delegated_to_user := none, comments := comments, ip_address := ip }
            :: a.history) ∧
    (∀ a3, a.escalate now = (a3, true) →
      ∃ c, a3.history
        = { step_sequence := a.current_step_sequence, approver_role := none,
            approver_user := none, action := "ESCALATED", action_date := now,
            delegated_to_user := none, comments := some c, ip_address := none }
          :: a.history) := by
  refine ⟨rfl, rfl, ?_, ?_⟩
  · intro step hstep hmem
    have key : approve_step db a user now comments ip
        = Except.ok
            ((Approval.advance_to_next_step
              { a with history :=
                  { step_sequence := a.current_step_sequence,
                    approver_role := step.approver_role,
                    approver_user := some user, action := "APPROVED",
                    action_date := now, delegated_to_user := none,
                    comments := comments, ip_address := ip } :: a.history } now).1,
             !(Approval.advance_to_next_step
              { a with history :=
                  { step_sequence := a.current_step_sequence,
                    approver_role := step.approver_role,
                    approver_user := some user, action := "APPROVED",
                    action_date := now, delegated_to_user := none,
                    comments := comments, ip_address := ip } :: a.history } now).2) := by
      simp only [approve_step, hstep]
      rw [if_pos hmem]
    exact ⟨_, _, key,
      (advance_preserves
        { a with history :=
            { step_sequence := a.current_step_sequence,
              approver_role := step.approver_role,
              approver_user := some user, action := "APPROVED",
              action_date := now, delegated_to_user := none,
              comments := comments, ip_address := ip } :: a.history } now).2.2⟩
  · intro a3 h3
    cases hs : a.get_current_step with
    | none => simp [Approval.escalate, hs, Prod.ext_iff] at h3
    | some step =>
      cases hr : step.escalation_role with
      | none => simp [Approval.escalate, hs, hr, Prod.ext_iff] at h3
      | some erole =>
        simp only [Approval.escalate, hs, hr] at h3
        rw [Prod.mk.injEq] at h3
        exact ⟨"Escalated to " ++ erole.role_name ++ " due to timeout",
          by rw [← h3.1]⟩

/-- C5 as frozen is false: when escalation applies, the single history
row `escalate` writes has action ESCALATED but no acting user
(`approver_user` is `None`). -/
theorem c5_counterexample :
    (escCex.escalate 100).2 = true ∧
    ((escCex.escalate 100).1.history.map (fun e => e.action)) = ["ESCALATED"] ∧
    ((escCex.escalate 100).1.history.map (fun e => e.approver_user)) = [none] :=
  ⟨rfl, rfl, rfl⟩

/-- Witness for C5 at a concrete approval: user 1 is the designated
approver, escalation applies. -/
theorem c5_witness :
    ((escCex.reject 100 1 none).history
      = { step_sequence := escCex.current_step_sequence, approver_role := none,
          approver_user := some 1, action := "REJECTED", action_date := 100,
          delegated_to_user := none, comments := none, ip_address := none }
        :: escCex.history) ∧
    ((escCex.cancel 100 1 none).history
      = { step_sequence := escCex.current_step_sequence, approver_role := none,
          approver_user := some 1, action := "CANCELLED", action_date := 100,
          delegated_to_user := none, comments := none, ip_address := none }
        :: escCex.history) ∧
    (∀ step, escCex.get_current_step = some step →
      (1 : Nat) ∈ get_approvers ⟨[⟨1, true⟩], []⟩ step →
      ∃ a2 done, approve_step ⟨[⟨1, true⟩], []⟩ escCex 1 100 none none
          = Except.ok (a2, done) ∧
        a2.history
          = { step_sequence := escCex.current_step_sequence,
              approver_role := step.approver_role,
              approver_user := some 1, action := "APPROVED", action_date := 100,
              delegated_to_user := none, comments := none, ip_address := none }
            :: escCex.history) ∧
    (∀ a3, escCex.escalate 100 = (a3, true) →
      ∃ c, a3.history
        = { step_sequence := escCex.current_step_sequence, approver_role := none,
            approver_user := none, action := "ESCALATED", action_date := 100,
            delegated_to_user := none, comments := some c, ip_address := none }
          :: escCex.history) :=
  c5_audit_rows ⟨[⟨1, true⟩], []⟩ escCex 1 100 none none none

/-- C6 (amended: the configured `timeout_hours` must be nonzero as well
as non-null, since the code tests Python truthiness): `check_timeout`
returns true iff the current step exists, carries a non-null nonzero
timeout, and the current time is strictly after the reference time plus
the timeout, where the reference time is the `action_date` of the most
recent history row at the current step, or `requested_at` when there is
none. -/
theorem c6_check_timeout (a : Approval) (now : Int) :
    a.check_timeout now = true ↔
      ∃ step, a.get_current_step = some step ∧
        ∃ h, step.timeout_hours = some h ∧ h ≠ 0 ∧
          (((a.history.filter
              (fun e => e.step_sequence == a.current_step_sequence)).map
              (fun e => e.action_date)).max?.getD a.requested_at) + h * 3600 < now := by
  unfold Approval.check_timeout
  cases hs : a.get_current_step with
  | none => simp
  | some step =>
    cases hh : step.timeout_hours with
    | none => simp [hh]
    | some h =>
      by_cases h0 : h = 0
      · subst h0
        simp [hh]
      · simp [hh, h0, gt_iff_lt]

/-- C6 as frozen is false: with a non-null but zero `timeout_hours` and
any late enough clock, the claimed condition holds yet `check_timeout`
returns false. -/
theorem c6_counterexample :
    c6Cex.check_timeout 10000 = false ∧
    (c6Cex.get_current_step.map (fun s => s.timeout_hours)) = some (some 0) ∧
    ((((c6Cex.history.filter
        (fun e => e.step_sequence == c6Cex.current_step_sequence)).map
        (fun e => e.action_date)).max?.getD c6Cex.requested_at) + 0 * 3600
      < (10000 : Int)) :=
  ⟨rfl, rfl, by decide⟩

/-! ## Theorems about step advancement (C1) and the PR signal (C7) -/

/-- `get_steps` is a permutation of the workflow's non-deleted steps. -/
theorem get_steps_perm (w : Workflow) :
    (w.get_steps).Perm (w.steps.filter (fun s => s.deleted_at.isNone)) :=
  List.perm_insertionSort stepLE _

/-- `get_steps` is sorted by `step_sequence`. -/
theorem get_steps_sorted (w : Workflow) : (w.get_steps).Sorted stepLE :=
  List.sorted_insertionSort stepLE _

/-- The head of a `step_sequence`-sorted list has the least sequence. -/
theorem head_least {l : List WorkflowStep} (hs : l.Sorted stepLE) {s : WorkflowStep}
    (hh : l.head? = some s) : ∀ t ∈ l, s.step_sequence ≤ t.step_sequence := by
  cases l with
  | nil => cases hh
  | cons x xs =>
    injection hh with hh
    subst hh
    intro t ht
    rcases List.mem_cons.mp ht with h | h
    · subst h; exact le_refl _
    · exact (List.pairwise_cons.mp hs).1 t h

/-- `head? = some` members belong to the list. -/
theorem mem_of_head?_eq {α : Type} {l : List α} {x : α} (h : l.head? = some x) :
    x ∈ l := by
  cases l with
  | nil => cases h
  | cons y ys =>
    injection h with h
    rw [← h]
    exact List.mem_cons_self _ _

/-- C1: with no workflow `advance_to_next_step` returns false and changes
nothing; with a workflow having at least one non-deleted step, a null
`current_step_sequence` moves to the smallest step sequence, sets the
status IN_PROGRESS and returns true; a set sequence moves to the smallest
strictly greater sequence (returning true) when one exists, and otherwise
marks the approval APPROVED, stamps `completed_at` and returns false. -/
theorem c1_advance_to_next_step (a : Approval) (now : Int) :
    (a.workflow = none → a.advance_to_next_step now = (a, false)) ∧
    (∀ w, a.workflow = some w →
      w.steps.filter (fun s => s.deleted_at.isNone) ≠ [] →
      ((a.current_step_sequence = none →
        ∃ q, a.advance_to_next_step now
            = ({ a with current_step_sequence := some q, status := "IN_PROGRESS" },
               true) ∧
          q ∈ (w.steps.filter (fun s => s.deleted_at.isNone)).map
            (fun s => s.step_sequence) ∧
          ∀ r ∈ (w.steps.filter (fun s => s.deleted_at.isNone)).map
            (fun s => s.step_sequence), q ≤ r) ∧
      (∀ cur, a.current_step_sequence = some cur →
        ((∃ s ∈ w.steps.filter (fun s => s.deleted_at.isNone),
            cur < s.step_sequence) →
          ∃ q, a.advance_to_next_step now
              = ({ a with current_step_sequence := some q }, true) ∧
            cur < q ∧
            q ∈ (w.steps.filter (fun s => s.deleted_at.isNone)).map
              (fun s => s.step_sequence) ∧
            ∀ r ∈ (w.steps.filter (fun s => s.deleted_at.isNone)).map
              (fun s => s.step_sequence), cur < r → q ≤ r) ∧
        ((∀ s ∈ w.steps.filter (fun s => s.deleted_at.isNone),
            ¬ cur < s.step_sequence) →
          a.advance_to_next_step now
            = ({ a with status := "APPROVED", completed_at := some now },
               false))))) := by
  constructor
  · intro h
    simp [Approval.advance_to_next_step, h]
  · intro w hw hne
    have hperm := get_steps_perm w
    have hsorted := get_steps_sorted w
    constructor
    · intro hcur
      have hne2 : w.get_steps ≠ [] := by
        intro h0
        exact hne (List.Perm.nil_eq (h0 ▸ hperm)).symm
      obtain ⟨fs, hfs⟩ : ∃ fs, (w.get_steps).head? = some fs := by
        cases hgs : w.get_steps with
        | nil => exact absurd hgs hne2
        | cons x xs => exact ⟨x, rfl⟩
      refine ⟨fs.step_sequence, ?_, ?_, ?_⟩
      · simp [Approval.advance_to_next_step, hw, hcur, hfs]
      · exact List.mem_map.mpr ⟨fs, hperm.mem_iff.mp (mem_of_head?_eq hfs), rfl⟩
      · intro r hr
        rcases List.mem_map.mp hr with ⟨t, ht, rfl⟩
        exact head_least hsorted hfs t (hperm.mem_iff.mpr ht)
    · intro cur hcur
      constructor
      · rintro ⟨s, hsnd, hslt⟩
        have hmemf : s ∈ (w.get_steps).filter
            (fun t => decide (cur < t.step_sequence)) := by
          rw [List.mem_filter]
          exact ⟨hperm.mem_iff.mpr hsnd, by simpa using hslt⟩
        obtain ⟨nx, hnx⟩ : ∃ nx, ((w.get_steps).filter
            (fun t => decide (cur < t.step_sequence))).head? = some nx := by
          cases hgf : (w.get_steps).filter
              (fun t => decide (cur < t.step_sequence)) with
          | nil => rw [hgf] at hmemf; cases hmemf
          | cons x xs => exact ⟨x, rfl⟩
        have hsorted2 : ((w.get_steps).filter
            (fun t => decide (cur < t.step_sequence))).Sorted stepLE :=
          hsorted.filter _
        have hnmem := mem_of_head?_eq hnx
        refine ⟨nx.step_sequence, ?_, ?_, ?_, ?_⟩
        · simp [Approval.advance_to_next_step, hw, hcur, hnx]
        · have := (List.mem_filter.mp hnmem).2
          simpa using this
        · exact List.mem_map.mpr
            ⟨nx, hperm.mem_iff.mp (List.mem_filter.mp hnmem).1, rfl⟩
        · intro r hr hcr
          rcases List.mem_map.mp hr with ⟨t, ht, rfl⟩
          have htf : t ∈ (w.get_steps).filter
              (fun t => decide (cur < t.step_sequence)) := by
            rw [List.mem_filter]
            exact ⟨hperm.mem_iff.mpr ht, by simpa using hcr⟩
          exact head_least hsorted2 hnx t htf
      · intro hnone
        have hfnil : (w.get_steps).filter
            (fun t => decide (cur < t.step_sequence)) = [] := by
          rw [List.filter_eq_nil_iff]
          intro t htg
          have := hnone t (hperm.mem_iff.mp htg)
          simpa using this
        simp [Approval.advance_to_next_step, hw, hcur, hfnil]

/-- Witness for C1: an approval at the last step of a two-step workflow
completes with status APPROVED and result false. -/
theorem c1_witness :
    c1A.advance_to_next_step 77
      = ({ c1A with status := "APPROVED", completed_at := some 77 }, false) :=
  (((c1_advance_to_next_step c1A 77).2 c1W rfl (by decide)).2 2 rfl).2 (by decide)

/-- A successful `create_approval` appends exactly one approval row
carrying the requested entity type and id, and leaves the workflow
table alone. -/
theorem create_approval_ok_shape (db : ApprovalsDB) (now : Int) (et : String)
    (eid : Nat) (eno : Option String) (rb : Nat) (v : Option ℚ) (rm : Option String)
    (db2 : ApprovalsDB)
    (h : create_approval db now et eid eno rb v rm = Except.ok db2) :
    ∃ ap, db2.approvals = db.approvals ++ [ap] ∧
      ap.entity_type = et ∧ ap.entity_id = eid ∧ db2.workflows = db.workflows := by
  unfold create_approval at h
  split at h
  · exact Except.noConfusion h
  · injection h with h
    exact ⟨_, by rw [← h], (advance_preserves _ now).1,
      (advance_preserves _ now).2.1, by rw [← h]⟩

/-- One receiver run preserves "at most one PR approval for this
request". -/
theorem auto_create_step_bound (db : ApprovalsDB) (now : Int) (pr : PurchaseRequest)
    (h : prApprovalCount db pr ≤ 1) :
    prApprovalCount (auto_create_pr_approval db now pr) pr ≤ 1 := by
  unfold auto_create_pr_approval
  cases hs : (pr.status == "SUBMITTED") with
  | false => simpa [hs] using h
  | true =>
    simp only [hs, if_true]
    cases he : (db.approvals.any
        (fun a => a.entity_type == "PR" && a.entity_id == pr.id)) with
    | true => simpa [he] using h
    | false =>
      simp only [he, Bool.false_eq_true, if_false]
      have hc0 : prApprovalCount db pr = 0 := by
        unfold prApprovalCount
        rw [List.length_eq_zero, List.filter_eq_nil_iff]
        intro x hx hpx
        have hany : db.approvals.any
            (fun a => a.entity_type == "PR" && a.entity_id == pr.id) = true :=
          List.any_eq_true.mpr ⟨x, hx, hpx⟩
        rw [he] at hany
        exact Bool.noConfusion hany
      cases hcr : create_approval db now "PR" pr.id (some pr.pr_number) pr.requester
          pr.total_estimated_value pr.justification with
      | error e =>
        simp only [hcr]
        omega
      | ok db2 =>
        obtain ⟨ap, hap, hty, hid, -⟩ :=
          create_approval_ok_shape _ _ _ _ _ _ _ _ _ hcr
        simp only [hcr]
        unfold prApprovalCount at hc0 ⊢
        rw [hap, List.filter_append, List.length_append, hc0]
        simp [hty, hid]

/-- C7: starting from a store holding no PR approval for the request,
saving it with status SUBMITTED any number of times leaves at most one
matching approval row, and a save with any other status changes
nothing. -/
theorem c7_idempotent_pr_approval (db : ApprovalsDB) (now : Int)
    (pr : PurchaseRequest) (h0 : prApprovalCount db pr = 0) :
    (∀ n, prApprovalCount (saveTimes db now pr n) pr ≤ 1) ∧
    (pr.status ≠ "SUBMITTED" → ∀ n, saveTimes db now pr n = db) := by
  constructor
  · intro n
    induction n with
    | zero =>
      show prApprovalCount db pr ≤ 1
      omega
    | succ n ih =>
      exact auto_create_step_bound _ now pr ih
  · intro hns n
    induction n with
    | zero => rfl
    | succ n ih =>
      show auto_create_pr_approval (saveTimes db now pr n) now pr = db
      rw [ih]
      simp [auto_create_pr_approval, hns]

/-- Witness for C7: repeated SUBMITTED saves of a concrete purchase
request against `c7Db` never produce a second approval row. -/
theorem c7_witness :
    (∀ n, prApprovalCount
        (saveTimes c7Db 10 ⟨1, "PR-2025-0001", "SUBMITTED", 2, some 500, none⟩ n)
        ⟨1, "PR-2025-0001", "SUBMITTED", 2, some 500, none⟩ ≤ 1) ∧
    ((⟨1, "PR-2025-0001", "SUBMITTED", 2, some 500, none⟩ :
        PurchaseRequest).status ≠ "SUBMITTED" →
      ∀ n, saveTimes c7Db 10 ⟨1, "PR-2025-0001", "SUBMITTED", 2, some 500, none⟩ n
        = c7Db) :=
  c7_idempotent_pr_approval c7Db 10 ⟨1, "PR-2025-0001", "SUBMITTED", 2, some 500, none⟩ rfl

end PDLIMS
